import Mathlib

/-!
A shallow embedding of the `tomlconfig` Python module
(`src/tomlconfig/__init__.py`), a declarative TOML-to-dataclass
configuration loader, together with theorems about its behaviour.

Python runtime values are modelled by the inductive `Value`, Python
exceptions by `PyExc`, the per-field declared types by `FieldType`, a
configclass instance by `ConfigState` (its attribute dictionary plus the
`__configclass__set_attrs__` provenance set), and the filesystem seen by
`parse` by `FileSystem`.  The functions `_update` and `parse` are direct
translations of the functions of the same names in the source.
-/

namespace TomlConfig

/-- Python runtime values, covering the TOML value shapes produced by
`tomllib.load` as well as the coerced container shapes. -/
inductive Value where
  | vstr (s : String)
  | vint (n : Int)
  | vbool (b : Bool)
  | vnone
  | vlist (xs : List Value)
  | vtuple (xs : List Value)
  | vset (xs : List Value)
  | vdict (entries : List (Value × Value))

/-- Python exceptions relevant to the module. -/
inductive PyExc where
  | keyError (msg : String)
  | valueError (msg : String)
  | typeError (msg : String)
  | attributeError (msg : String)
  | configError (msg : String)
  | fileNotFoundError
  | tomlDecodeError (msg : String)
deriving DecidableEq, Repr

mutual

/-- Equality test on values, as Python `==` behaves on values of equal
type (used by `dict` key collision and `set` deduplication). -/
def valueBeq : Value → Value → Bool
  | .vstr a, .vstr b => a == b
  | .vint a, .vint b => a == b
  | .vbool a, .vbool b => a == b
  | .vnone, .vnone => true
  | .vlist a, .vlist b => valueListBeq a b
  | .vtuple a, .vtuple b => valueListBeq a b
  | .vset a, .vset b => valueListBeq a b
  | .vdict a, .vdict b => valuePairsBeq a b
  | _, _ => false

/-- Elementwise equality of value lists. -/
def valueListBeq : List Value → List Value → Bool
  | [], [] => true
  | x :: xs, y :: ys => valueBeq x y && valueListBeq xs ys
  | _, _ => false

/-- Elementwise equality of key/value pair lists. -/
def valuePairsBeq : List (Value × Value) → List (Value × Value) → Bool
  | [], [] => true
  | (k₁, v₁) :: xs, (k₂, v₂) :: ys => valueBeq k₁ k₂ && valueBeq v₁ v₂ && valuePairsBeq xs ys
  | _, _ => false

end

/-- Python's `str(ex)` for an exception: `KeyError` renders its argument
with repr quotes, the others render the plain message. -/
def excStr : PyExc → String
  | .keyError m => "'" ++ m ++ "'"
  | .valueError m => m
  | .typeError m => m
  | .attributeError m => m
  | .configError m => m
  | .fileNotFoundError => "No such file or directory"
  | .tomlDecodeError m => m

/-- The Python type name of a value, as used in builtin error messages. -/
def pyTypeName : Value → String
  | .vstr _ => "str"
  | .vint _ => "int"
  | .vbool _ => "bool"
  | .vnone => "NoneType"
  | .vlist _ => "list"
  | .vtuple _ => "tuple"
  | .vset _ => "set"
  | .vdict _ => "dict"

mutual

/-- Python's `repr` of a value. -/
def pyRepr : Value → String
  | .vstr s => "'" ++ s ++ "'"
  | .vint n => toString n
  | .vbool b => if b then "True" else "False"
  | .vnone => "None"
  | .vlist xs => "[" ++ pyReprSep xs ++ "]"
  | .vtuple xs => "(" ++ pyReprSep xs ++ (if xs.length == 1 then ",)" else ")")
  | .vset xs => if xs.isEmpty then "set()" else "\x7b" ++ pyReprSep xs ++ "\x7d"
  | .vdict ps => "\x7b" ++ pyReprPairs ps ++ "\x7d"

/-- Comma separated `repr`s of the elements of a list. -/
def pyReprSep : List Value → String
  | [] => ""
  | [x] => pyRepr x
  | x :: xs => pyRepr x ++ ", " ++ pyReprSep xs

/-- Comma separated `repr`s of the entries of a dict. -/
def pyReprPairs : List (Value × Value) → String
  | [] => ""
  | [(k, v)] => pyRepr k ++ ": " ++ pyRepr v
  | (k, v) :: ps => pyRepr k ++ ": " ++ pyRepr v ++ ", " ++ pyReprPairs ps

end

/-- Python's `str` of a value: the bare string for `str`, `repr` otherwise. -/
def pyStr : Value → String
  | .vstr s => s
  | v => pyRepr v

/-- Python truthiness, as tested by the `bool` constructor. -/
def pyTruthy : Value → Bool
  | .vstr s => !s.isEmpty
  | .vint n => n != 0
  | .vbool b => b
  | .vnone => false
  | .vlist xs => !xs.isEmpty
  | .vtuple xs => !xs.isEmpty
  | .vset xs => !xs.isEmpty
  | .vdict ps => !ps.isEmpty

/-- Digits-only string to number, `none` when empty or non-digit. -/
def digitsToNat : List Char → Option Nat
  | [] => none
  | cs =>
    if cs.all Char.isDigit then
      some (cs.foldl (fun a c => a * 10 + (c.toNat - 48)) 0)
    else
      none

/-- Python's `int(string)`: an optional sign followed by digits
(whitespace handling elided), `none` where `int` raises `ValueError`. -/
def strToInt : String → Option Int
  | s =>
    match s.data with
    | '-' :: rest => (digitsToNat rest).map (fun n => -(n : Int))
    | '+' :: rest => (digitsToNat rest).map (fun n => (n : Int))
    | cs => (digitsToNat cs).map (fun n => (n : Int))

/-- The scalar builtin types a field may declare; these are the `value_t`
callables applied by `_update`. -/
inductive PyType where
  | tInt
  | tStr
  | tBool
deriving DecidableEq, Repr

/-- Calling the type's single-argument constructor on a value, as Python
does: `int` accepts ints, bools and well-formed strings, raising
`ValueError` on a malformed string and `TypeError` on other shapes;
`str` and `bool` accept anything. -/
def constructorApply : PyType → Value → Except PyExc Value
  | .tInt, .vint n => .ok (.vint n)
  | .tInt, .vbool b => .ok (.vint (if b then 1 else 0))
  | .tInt, .vstr s =>
    match strToInt s with
    | some n => .ok (.vint n)
    | none => .error (.valueError ("invalid literal for int() with base 10: '" ++ s ++ "'"))
  | .tInt, v =>
    .error (.typeError
      ("int() argument must be a string, a bytes-like object or a real number, not '"
        ++ pyTypeName v ++ "'"))
  | .tStr, v => .ok (.vstr (pyStr v))
  | .tBool, v => .ok (.vbool (pyTruthy v))

/-- Python iteration over a value, as consumed by `map(item_t, value)`:
lists, tuples and sets yield their elements, dicts their keys, strings
their characters; other values raise `TypeError`. -/
def iterElems : Value → Except PyExc (List Value)
  | .vlist xs => .ok xs
  | .vtuple xs => .ok xs
  | .vset xs => .ok xs
  | .vdict ps => .ok (ps.map Prod.fst)
  | .vstr s => .ok (s.data.map (fun c => .vstr (String.mk [c])))
  | v => .error (.typeError ("'" ++ pyTypeName v ++ "' object is not iterable"))

/-- Coerce every element of a list through a constructor, propagating the
first failure, as `list(map(item_t, value))` does. -/
def mapConstruct (t : PyType) : List Value → Except PyExc (List Value)
  | [] => .ok []
  | v :: vs =>
    match constructorApply t v with
    | .error e => .error e
    | .ok w =>
      match mapConstruct t vs with
      | .error e => .error e
      | .ok ws => .ok (w :: ws)

/-- Association lookup by Python value equality, as `k in dict` /
`dict[k]` behave on a dict modelled as an insertion-ordered pair list. -/
def assocLookup (d : List (Value × Value)) (k : Value) : Option Value :=
  match d with
  | [] => none
  | (k', v) :: rest => if valueBeq k' k then some v else assocLookup rest k

/-- `dict[k] = v` on an insertion-ordered pair list: a colliding key keeps
its position and takes the new value, a fresh key is appended. -/
def dictSet (d : List (Value × Value)) (k v : Value) : List (Value × Value) :=
  match d with
  | [] => [(k, v)]
  | (k', v') :: rest =>
    if valueBeq k' k then (k', v) :: rest else (k', v') :: dictSet rest k v

/-- `d.update(news)`: assign every entry of `news`, in order, into `d`. -/
def dictUpdate (d : List (Value × Value)) : List (Value × Value) → List (Value × Value)
  | [] => d
  | (k, v) :: rest => dictUpdate (dictSet d k v) rest

/-- Add an element to a set modelled as a duplicate-free list. -/
def setAdd (s : List Value) (v : Value) : List Value :=
  if s.any (valueBeq v) then s else s ++ [v]

/-- Python's `set(...)` of a list of elements: deduplicate, keeping the
first occurrence of each. -/
def pySet (xs : List Value) : List Value :=
  xs.foldl setAdd []

/-- Coerce every key and value of a dict's items through the declared key
and value constructors, propagating the first failure, as the dict
comprehension `\x7bdk_t(k): dv_t(v) for k, v in value.items()\x7d` does. -/
def coercePairs (kt vt : PyType) : List (Value × Value) → Except PyExc (List (Value × Value))
  | [] => .ok []
  | (k, v) :: rest =>
    match constructorApply kt k with
    | .error e => .error e
    | .ok ck =>
      match constructorApply vt v with
      | .error e => .error e
      | .ok cv =>
        match coercePairs kt vt rest with
        | .error e => .error e
        | .ok crest => .ok ((ck, cv) :: crest)

/-- The declared type of a dataclass field, as `_update` classifies it:
a parametrized container (detected through `__origin__`), a plain scalar
type, or a `T | None` union (a `UnionType`, unwrapped to its first
argument before dispatch). -/
inductive FieldType where
  | scalarOf (t : PyType)
  | listOf (t : PyType)
  | tupleOf (t : PyType)
  | setOf (t : PyType)
  | dictOf (kt vt : PyType)
  | unionOf (t : FieldType)
deriving DecidableEq, Repr

/-- The `isinstance(value_t, UnionType)` handling of `_update`: a union
is replaced by its first argument, anything else is kept. -/
def unwrapUnion : FieldType → FieldType
  | .unionOf t => t
  | t => t

/-- The schema of a configclass: its dataclass fields, in declaration
order, each with its declared type (field names are unique). -/
abbrev Schema := List (String × FieldType)

/-- A raw parsed TOML document: an insertion-ordered string-keyed
mapping, as produced by `tomllib.load`. -/
abbrev TomlDict := List (String × Value)

/-- A configclass instance: its attribute dictionary and the
`__configclass__set_attrs__` provenance set. -/
structure ConfigState where
  attrs : List (String × Value)
  setAttrs : List String

/-- `getattr(self, key, default)` on the modelled instance. -/
def getAttrD (st : ConfigState) (key : String) (d : Value) : Value :=
  match st.attrs.lookup key with
  | some v => v
  | none => d

/-- Assign into a string-keyed association list, keeping position on an
existing key and appending a fresh one. -/
def attrsSet : List (String × Value) → String → Value → List (String × Value)
  | [], k, v => [(k, v)]
  | (k', v') :: rest, k, v =>
    if k' == k then (k', v) :: rest else (k', v') :: attrsSet rest k v

/-- `setattr(self, key, v)` on the modelled instance. -/
def setAttr (st : ConfigState) (key : String) (v : Value) : ConfigState :=
  { st with attrs := attrsSet st.attrs key v }

/-- `getattr(self, SET_ATTRS_DUNDER).add(key)`: idempotent membership. -/
def addSetAttr (st : ConfigState) (key : String) : ConfigState :=
  { st with setAttrs := if key ∈ st.setAttrs then st.setAttrs else st.setAttrs ++ [key] }

/-- The body of `_update`'s `try` block for one key: dispatch on the
declared type's `__origin__` (list extends the current value, tuple and
set replace it, dict updates the current value, anything else is called
as a scalar constructor) and assign the result with `setattr`. -/
def coerceAssign (ft : FieldType) (st : ConfigState) (key : String) (value : Value) :
    Except PyExc ConfigState :=
  match ft with
  | .listOf t =>
    match iterElems value with
    | .error e => .error e
    | .ok elems =>
      match mapConstruct t elems with
      | .error e => .error e
      | .ok coerced =>
        match getAttrD st key (.vlist []) with
        | .vlist cur => .ok (setAttr st key (.vlist (cur ++ coerced)))
        | other =>
          .error (.attributeError ("'" ++ pyTypeName other ++ "' object has no attribute 'extend'"))
  | .tupleOf t =>
    match iterElems value with
    | .error e => .error e
    | .ok elems =>
      match mapConstruct t elems with
      | .error e => .error e
      | .ok coerced => .ok (setAttr st key (.vtuple coerced))
  | .setOf t =>
    match iterElems value with
    | .error e => .error e
    | .ok elems =>
      match mapConstruct t elems with
      | .error e => .error e
      | .ok coerced => .ok (setAttr st key (.vset (pySet coerced)))
  | .dictOf kt vt =>
    match value with
    | .vdict items =>
      match coercePairs kt vt items with
      | .error e => .error e
      | .ok coerced =>
        match getAttrD st key (.vdict []) with
        | .vdict cur => .ok (setAttr st key (.vdict (dictUpdate cur (dictUpdate [] coerced))))
        | other =>
          .error (.attributeError ("'" ++ pyTypeName other ++ "' object has no attribute 'update'"))
    | other =>
      .error (.attributeError ("'" ++ pyTypeName other ++ "' object has no attribute 'items'"))
  | .scalarOf t =>
    match constructorApply t value with
    | .error e => .error e
    | .ok coerced => .ok (setAttr st key coerced)
  | .unionOf _ =>
    .error (.typeError "cannot create 'types.UnionType' instances")

/-- One iteration of `_update`'s loop over `toml_dict.items()`: reject a
key missing from the dataclass fields with `KeyError`, otherwise run the
`try` body (unwrapping a `T | None` union first and recording provenance
on success) and translate the `except` clauses: a `ConfigError` is
re-raised as `ConfigError` with a dotted field prefix, a `KeyError` or
`ValueError` as `ConfigError` with a colon-separated field prefix, and
every other exception propagates unwrapped. -/
def updateKey (schema : Schema) (st : ConfigState) (key : String) (value : Value) :
    Except PyExc ConfigState :=
  match schema.lookup key with
  | none => .error (.keyError ("Unknown key " ++ key))
  | some ft =>
    match coerceAssign (unwrapUnion ft) st key value with
    | .ok st' => .ok (addSetAttr st' key)
    | .error (.configError m) =>
      .error (.configError (key ++ "." ++ excStr (.configError m)))
    | .error (.keyError m) =>
      .error (.configError (key ++ ": " ++ excStr (.keyError m)))
    | .error (.valueError m) =>
      .error (.configError (key ++ ": " ++ excStr (.valueError m)))
    | .error e => .error e

/-- `_update(self, toml_dict)`: fold `updateKey` over the document's
items in order, stopping at the first failure. -/
def _update (schema : Schema) : ConfigState → TomlDict → Except PyExc ConfigState
  | st, [] => .ok st
  | st, (k, v) :: rest =>
    match updateKey schema st k v with
    | .error e => .error e
    | .ok st' => _update schema st' rest

/-- The contents of one file: either TOML that parses to a document, or
malformed bytes on which `tomllib.load` raises `TOMLDecodeError`. -/
inductive FileContent where
  | toml (d : TomlDict)
  | malformed (msg : String)

/-- The filesystem seen by `parse`: the current working directory (for
resolving relative paths), the regular files by absolute path, and the
directory listings by absolute path (in filesystem order, unsorted). -/
structure FileSystem where
  cwd : String
  files : List (String × FileContent)
  dirs : List (String × List String)

/-- Whether a path is absolute (starts with a slash). -/
def startsWithSlash (p : String) : Bool :=
  match p.data with
  | '/' :: _ => true
  | _ => false

/-- Whether a path ends with a slash. -/
def endsWithSlash (p : String) : Bool :=
  match p.data.getLast? with
  | some '/' => true
  | _ => false

/-- Resolve a path against the working directory when it is relative. -/
def resolvePath (fs : FileSystem) (p : String) : String :=
  if startsWithSlash p then p else fs.cwd ++ "/" ++ p

/-- `os.path.isfile(p)`: the resolved path names a regular file. -/
def isfile (fs : FileSystem) (p : String) : Bool :=
  (fs.files.lookup (resolvePath fs p)).isSome

/-- `os.path.join(a, b)`. -/
def joinPath (a b : String) : String :=
  if startsWithSlash b then b
  else if endsWithSlash a then a ++ b
  else a ++ "/" ++ b

/-- `os.listdir(p)`: entries of a directory, `FileNotFoundError` when the
resolved path is not a directory of the filesystem. -/
def listdir (fs : FileSystem) (p : String) : Except PyExc (List String) :=
  match fs.dirs.lookup (resolvePath fs p) with
  | some entries => .ok entries
  | none => .error .fileNotFoundError

/-- `open(p, "rb")` followed by reading: the file's content, or
`FileNotFoundError` when the resolved path names no regular file. -/
def openRead (fs : FileSystem) (p : String) : Except PyExc FileContent :=
  match fs.files.lookup (resolvePath fs p) with
  | some c => .ok c
  | none => .error .fileNotFoundError

/-- `tomllib.load(file)` on the opened content. -/
def loadToml : FileContent → Except PyExc TomlDict
  | .toml d => .ok d
  | .malformed m => .error (.tomlDecodeError m)

/-- Lexicographic comparison of character lists by code point, Python's
string ordering. -/
def charListLe : List Char → List Char → Bool
  | [], _ => true
  | _ :: _, [] => false
  | a :: as, b :: bs =>
    if a.toNat < b.toNat then true
    else if b.toNat < a.toNat then false
    else charListLe as bs

/-- Python's `<=` on strings. -/
def strLe (a b : String) : Bool :=
  charListLe a.data b.data

/-- Insert a string into an already sorted list of strings. -/
def insertSorted (x : String) : List String → List String
  | [] => [x]
  | y :: ys => if strLe x y then x :: y :: ys else y :: insertSorted x ys

/-- Python's `sorted` on directory entry names: lexicographic by code
point. -/
def sortStrings (xs : List String) : List String :=
  xs.foldr insertSorted []

/-- A registered configclass type: its dataclass schema, the attribute
values a bare `cls()` call produces (the dataclass field defaults), and
the optional validator attached by the `configclass` decorator. -/
structure ConfigClass where
  schema : Schema
  defaults : List (String × Value)
  validator : Option (ConfigState → Except PyExc Unit)

/-- `cls()`: the generated initializer seeds the provenance set empty,
runs the dataclass initializer assigning every field its default, and
finishes with a no-op `_update` on the empty dict. -/
def initState (c : ConfigClass) : ConfigState :=
  { attrs := c.defaults, setAttrs := [] }

/-- The outcome of running the body of `parse`'s `try` block: the
instance's state when the block finished or raised, the value of the
`file_path` variable at that moment, and the exception raised, if any. -/
structure TryOut where
  st : ConfigState
  fp : Option String
  err : Option PyExc

/-- The `for file_path in sorted(listdir(conf_d_path))` loop of `parse`:
each entry name is bound to `file_path`, entries for which
`isfile(file_path)` is false (the bare name, resolved against the
working directory, not joined to the overlay directory) are skipped, and
the rest are opened under `join(conf_d_path, file_path)`, parsed and
applied to the same instance. -/
def overlayLoop (schema : Schema) (fs : FileSystem) (dirPath : String) :
    List String → ConfigState → Option String → TryOut
  | [], st, fp => ⟨st, fp, none⟩
  | e :: rest, st, _ =>
    if !isfile fs e then overlayLoop schema fs dirPath rest st (some e)
    else
      match openRead fs (joinPath dirPath e) with
      | .error ex => ⟨st, some e, some ex⟩
      | .ok content =>
        match loadToml content with
        | .error ex => ⟨st, some e, some ex⟩
        | .ok d =>
          match _update schema st d with
          | .error ex => ⟨st, some e, some ex⟩
          | .ok st' => overlayLoop schema fs dirPath rest st' (some e)

/-- The file-loading part of `parse`'s `try` block: starting from the
freshly constructed instance (every field at its dataclass default,
provenance empty), apply the base file if given, then the sorted overlay
directory entries if given, threading the instance state and the
`file_path` variable and stopping at the first exception.  This part
depends only on the schema and the defaults, not on the validator. -/
def loadStage (schema : Schema) (defaults : List (String × Value)) (fs : FileSystem)
    (confPath confDPath : Option String) : TryOut :=
  let st0 : ConfigState := ⟨defaults, []⟩
  let afterBase : TryOut :=
    match confPath with
    | none => ⟨st0, none, none⟩
    | some p =>
      match openRead fs p with
      | .error ex => ⟨st0, some p, some ex⟩
      | .ok content =>
        match loadToml content with
        | .error ex => ⟨st0, some p, some ex⟩
        | .ok d =>
          match _update schema st0 d with
          | .error ex => ⟨st0, some p, some ex⟩
          | .ok st1 => ⟨st1, some p, none⟩
  match afterBase.err with
  | some _ => afterBase
  | none =>
    match confDPath with
    | none => afterBase
    | some dpath =>
      match listdir fs dpath with
      | .error ex => ⟨afterBase.st, afterBase.fp, some ex⟩
      | .ok entries =>
        overlayLoop schema fs dpath (sortStrings entries) afterBase.st afterBase.fp

/-- The whole body of `parse`'s `try` block: the file-loading part,
followed (only when no exception was raised) by a call to the validator
looked up on the instance. -/
def parseTry (c : ConfigClass) (fs : FileSystem) (confPath confDPath : Option String) :
    TryOut :=
  let loaded := loadStage c.schema c.defaults fs confPath confDPath
  match loaded.err with
  | some _ => loaded
  | none =>
    match c.validator with
    | none => loaded
    | some v =>
      match v loaded.st with
      | .ok _ => loaded
      | .error ex => ⟨loaded.st, loaded.fp, some ex⟩

/-- Render the `file_path` variable as Python's f-string does. -/
def fpStr : Option String → String
  | none => "None"
  | some p => p

/-- `parse(cls, conf_path, conf_d_path, ignore_missing)`: run the `try`
body and translate its `except` clauses.  A `FileNotFoundError` is
swallowed (returning the instance as mutated so far) when
`ignore_missing` is set and re-raised unwrapped otherwise; a
`ConfigError` is wrapped with an `In file` prefix; a `TOMLDecodeError`
is wrapped with an `Error parsing the file` prefix; every other
exception propagates unwrapped. -/
def parse (c : ConfigClass) (fs : FileSystem) (confPath : Option String)
    (confDPath : Option String) (ignoreMissing : Bool) :
    Except PyExc ConfigState :=
  let r := parseTry c fs confPath confDPath
  match r.err with
  | none => .ok r.st
  | some .fileNotFoundError =>
    if ignoreMissing then .ok r.st else .error .fileNotFoundError
  | some (.configError m) =>
    .error (.configError ("In file " ++ fpStr r.fp ++ ": " ++ excStr (.configError m)))
  | some (.tomlDecodeError m) =>
    .error (.configError
      ("Error parsing the file " ++ fpStr r.fp ++ ": " ++ excStr (.tomlDecodeError m)))
  | some e => .error e

/-- `configclass_attrs_set(cfg)`: a frozen copy of the provenance set. -/
def configclass_attrs_set (cfg : ConfigState) : List String :=
  cfg.setAttrs

/-- Whether a `parse` outcome is a raised `ConfigError`. -/
def isConfigErrorResult : Except PyExc ConfigState → Bool
  | .error (.configError _) => true
  | _ => false

/-! ### Concrete loading scenarios used by the theorems below -/

/-- A configclass with a single int field `x` defaulting to `0`. -/
def claim1Class : ConfigClass :=
  ⟨[("x", .scalarOf .tInt)], [("x", .vint 0)], none⟩

/-- An overlay directory `/conf.d` holding the regular file `a.toml`,
seen from a working directory (`/home/user`) that holds no `a.toml`. -/
def claim1FsElsewhere : FileSystem :=
  ⟨"/home/user", [("/conf.d/a.toml", .toml [("x", .vint 1)])], [("/conf.d", ["a.toml"])]⟩

/-- The identical files and directories, seen from working directory
`/conf.d` itself, where the bare name `a.toml` does resolve to a file. -/
def claim1FsInside : FileSystem :=
  ⟨"/conf.d", [("/conf.d/a.toml", .toml [("x", .vint 1)])], [("/conf.d", ["a.toml"])]⟩

/-- A validator rejecting a zero `port` with a `ConfigError`. -/
def claim2Validator : ConfigState → Except PyExc Unit := fun st =>
  match st.attrs.lookup "port" with
  | some (.vint 0) => .error (.configError "port must not be 0")
  | _ => .ok ()

/-- A configclass with an int field `port` and the validator above. -/
def claim2Class : ConfigClass :=
  ⟨[("port", .scalarOf .tInt)], [("port", .vint 1)], some claim2Validator⟩

/-- A base file whose document sets `port = 0`. -/
def claim2Fs : FileSystem :=
  ⟨"/", [("/etc/app.toml", .toml [("port", .vint 0)])], []⟩

/-- An overlay-directory load for the same class: `/conf.d/10-a.toml`
sets `port = 0`; the working directory is `/conf.d`, so the entry passes
the bare-name `isfile` test and is applied. -/
def claim2FsOverlay : FileSystem :=
  ⟨"/conf.d", [("/conf.d/10-a.toml", .toml [("port", .vint 0)])], [("/conf.d", ["10-a.toml"])]⟩

/-- The same schema and validator with `port` defaulting to `0`, so the
validator rejects even a load given no file at all. -/
def claim2NoFileClass : ConfigClass :=
  ⟨[("port", .scalarOf .tInt)], [("port", .vint 0)], some claim2Validator⟩

/-- A configclass with a single int field `port` and no validator. -/
def claim3Class : ConfigClass :=
  ⟨[("port", .scalarOf .tInt)], [("port", .vint 1)], none⟩

/-- A base file whose document holds the unknown key `bogus`. -/
def claim3Fs : FileSystem :=
  ⟨"/", [("/a.toml", .toml [("bogus", .vint 1)])], []⟩

/-- A configclass with a single int field `port`. -/
def claim4Class : ConfigClass :=
  ⟨[("port", .scalarOf .tInt)], [("port", .vint 1)], none⟩

/-- A base file assigning a TOML list to the int field `port`. -/
def claim4FsList : FileSystem :=
  ⟨"/", [("/a.toml", .toml [("port", .vlist [])])], []⟩

/-- A base file assigning the non-numeric string "abc" to `port`. -/
def claim4FsStr : FileSystem :=
  ⟨"/", [("/a.toml", .toml [("port", .vstr "abc")])], []⟩

/-- A configclass with a list-of-str field `tags` defaulting to `[]`. -/
def claim5Class : ConfigClass :=
  ⟨[("tags", .listOf .tStr)], [("tags", .vlist [])], none⟩

/-- Two overlay files setting `tags` to `["a"]` and `["b"]`; the listing
is returned out of order to exercise the sort. -/
def claim5Fs : FileSystem :=
  ⟨"/conf.d",
   [("/conf.d/01.toml", .toml [("tags", .vlist [.vstr "a"])]),
    ("/conf.d/02.toml", .toml [("tags", .vlist [.vstr "b"])])],
   [("/conf.d", ["02.toml", "01.toml"])]⟩

/-- A configclass with a dict field `limits` defaulting to `\x7b\x7d`. -/
def claim6Class : ConfigClass :=
  ⟨[("limits", .dictOf .tStr .tInt)], [("limits", .vdict [])], none⟩

/-- Two overlay files: the first sets `limits.cpu = 1`, the second sets
`limits.mem = 2` and `limits.cpu = 9`. -/
def claim6Fs : FileSystem :=
  ⟨"/conf.d",
   [("/conf.d/a.toml", .toml [("limits", .vdict [(.vstr "cpu", .vint 1)])]),
    ("/conf.d/b.toml", .toml [("limits", .vdict [(.vstr "mem", .vint 2), (.vstr "cpu", .vint 9)])])],
   [("/conf.d", ["a.toml", "b.toml"])]⟩

/-- A configclass with a tuple-of-str field `flags`. -/
def claim7TupleClass : ConfigClass :=
  ⟨[("flags", .tupleOf .tStr)], [("flags", .vtuple [])], none⟩

/-- The same schema with `flags` declared as a set of str. -/
def claim7SetClass : ConfigClass :=
  ⟨[("flags", .setOf .tStr)], [("flags", .vset [])], none⟩

/-- Two overlay files setting `flags` to `["x","y"]` and then `["z"]`. -/
def claim7Fs : FileSystem :=
  ⟨"/conf.d",
   [("/conf.d/a.toml", .toml [("flags", .vlist [.vstr "x", .vstr "y"])]),
    ("/conf.d/b.toml", .toml [("flags", .vlist [.vstr "z"])])],
   [("/conf.d", ["a.toml", "b.toml"])]⟩

/-- A configclass with a single int field `x` defaulting to `0`. -/
def claim8Class : ConfigClass :=
  ⟨[("x", .scalarOf .tInt)], [("x", .vint 0)], none⟩

/-- An overlay directory whose file `b.toml` sets `x = 5`; the base path
`/missing.toml` does not exist. -/
def claim8Fs : FileSystem :=
  ⟨"/conf.d", [("/conf.d/b.toml", .toml [("x", .vint 5)])], [("/conf.d", ["b.toml"])]⟩

/-- A configclass with int fields `x` and `y`, both defaulting to `0`. -/
def claim9Class : ConfigClass :=
  ⟨[("x", .scalarOf .tInt), ("y", .scalarOf .tInt)],
   [("x", .vint 0), ("y", .vint 0)], none⟩

/-- A base file mentioning only the field `x`. -/
def claim9Fs : FileSystem :=
  ⟨"/", [("/a.toml", .toml [("x", .vint 3)])], []⟩

/-- A validator that rejects every instance. -/
def claim10Validator : ConfigState → Except PyExc Unit :=
  fun _ => .error (.configError "rejected")

/-- An empty filesystem: every path is missing. -/
def claim10Fs : FileSystem :=
  ⟨"/", [], []⟩

/-! ### Helper lemmas -/

/-- A scalar constructor never raises `FileNotFoundError`. -/
theorem constructorApply_error_ne_fnf {t : PyType} {v : Value} {e : PyExc}
    (h : constructorApply t v = .error e) : e ≠ .fileNotFoundError := by
  cases t <;> cases v <;> simp only [constructorApply] at h <;>
    (try split at h) <;> (try simp_all) <;> (rintro rfl; simp_all)

/-- Iteration never raises `FileNotFoundError`. -/
theorem iterElems_error_ne_fnf {v : Value} {e : PyExc}
    (h : iterElems v = .error e) : e ≠ .fileNotFoundError := by
  cases v <;> simp only [iterElems] at h <;> (try simp_all) <;> (rintro rfl; simp_all)

/-- Elementwise coercion never raises `FileNotFoundError`. -/
theorem mapConstruct_error_ne_fnf {t : PyType} :
    ∀ {xs : List Value} {e : PyExc}, mapConstruct t xs = .error e → e ≠ .fileNotFoundError
  | [], e, h => by simp [mapConstruct] at h
  | x :: xs, e, h => by
    rw [mapConstruct] at h
    cases hc : constructorApply t x with
    | error e1 =>
      rw [hc] at h
      injection h with h2
      exact h2 ▸ constructorApply_error_ne_fnf hc
    | ok w =>
      rw [hc] at h
      cases hm : mapConstruct t xs with
      | error e2 =>
        rw [hm] at h
        injection h with h2
        exact h2 ▸ mapConstruct_error_ne_fnf hm
      | ok ws => rw [hm] at h; exact absurd h (by simp)

/-- Dict item coercion never raises `FileNotFoundError`. -/
theorem coercePairs_error_ne_fnf {kt vt : PyType} :
    ∀ {ps : List (Value × Value)} {e : PyExc},
      coercePairs kt vt ps = .error e → e ≠ .fileNotFoundError
  | [], e, h => by simp [coercePairs] at h
  | (k, v) :: ps, e, h => by
    rw [coercePairs] at h
    cases hk : constructorApply kt k with
    | error e1 =>
      rw [hk] at h
      injection h with h2
      exact h2 ▸ constructorApply_error_ne_fnf hk
    | ok ck =>
      rw [hk] at h
      cases hv : constructorApply vt v with
      | error e2 =>
        rw [hv] at h
        injection h with h2
        exact h2 ▸ constructorApply_error_ne_fnf hv
      | ok cv =>
        rw [hv] at h
        cases hr : coercePairs kt vt ps with
        | error e3 =>
          rw [hr] at h
          injection h with h2
          exact h2 ▸ coercePairs_error_ne_fnf hr
        | ok crest => rw [hr] at h; exact absurd h (by simp)

/-- The per-key coercion body never raises `FileNotFoundError`. -/
theorem coerceAssign_error_ne_fnf {ft : FieldType} {st : ConfigState} {key : String}
    {v : Value} {e : PyExc} (h : coerceAssign ft st key v = .error e) :
    e ≠ .fileNotFoundError := by
  cases ft <;> simp only [coerceAssign] at h <;> repeat' split at h
  all_goals rintro rfl
  all_goals simp_all
  all_goals first
    | exact iterElems_error_ne_fnf ‹iterElems _ = _› rfl
    | exact mapConstruct_error_ne_fnf ‹mapConstruct _ _ = _› rfl
    | exact coercePairs_error_ne_fnf ‹coercePairs _ _ _ = _› rfl
    | exact constructorApply_error_ne_fnf ‹constructorApply _ _ = _› rfl

/-- One loop iteration of `_update` never raises `FileNotFoundError`. -/
theorem updateKey_error_ne_fnf {sch : Schema} {st : ConfigState} {k : String} {v : Value}
    {e : PyExc} (h : updateKey sch st k v = .error e) : e ≠ .fileNotFoundError := by
  rw [updateKey] at h
  split at h
  next =>
    injection h with h2
    rintro rfl
    simp_all
  next ft hlk =>
    cases hca : coerceAssign (unwrapUnion ft) st k v with
    | ok st2 => rw [hca] at h; simp at h
    | error e2 =>
      rw [hca] at h
      cases e2
      case fileNotFoundError =>
        injection h with h2
        subst h2
        exact coerceAssign_error_ne_fnf hca
      all_goals (injection h with h2; rintro rfl; simp_all)

/-- `_update` never raises `FileNotFoundError`: only the `open` and
`listdir` calls of `parse` can. -/
theorem update_error_ne_fnf {sch : Schema} :
    ∀ {st : ConfigState} {d : TomlDict} {e : PyExc},
      _update sch st d = .error e → e ≠ .fileNotFoundError
  | st, [], e, h => by simp [_update] at h
  | st, (k, v) :: rest, e, h => by
    rw [_update] at h
    cases hu : updateKey sch st k v with
    | error e1 =>
      rw [hu] at h
      injection h with h2
      exact h2 ▸ updateKey_error_ne_fnf hu
    | ok st1 =>
      rw [hu] at h
      exact update_error_ne_fnf h

/-- A successful per-key coercion body leaves the provenance set alone
(only the `add` after it, modelled in `updateKey`, extends it). -/
theorem coerceAssign_ok_setAttrs {ft : FieldType} {st : ConfigState} {key : String}
    {v : Value} {st' : ConfigState} (h : coerceAssign ft st key v = .ok st') :
    st'.setAttrs = st.setAttrs := by
  cases ft <;> simp only [coerceAssign] at h <;> repeat' split at h
  all_goals first
    | (injection h with h2; subst h2; rfl)
    | injection h

/-- A successful `updateKey` adds exactly its key to the provenance set. -/
theorem updateKey_ok_setAttrs {sch : Schema} {st : ConfigState} {k : String} {v : Value}
    {st' : ConfigState} (h : updateKey sch st k v = .ok st') :
    ∀ a, a ∈ st'.setAttrs ↔ a ∈ st.setAttrs ∨ a = k := by
  rw [updateKey] at h
  split at h
  · exact absurd h (by simp)
  next ft hlk =>
    cases hca : coerceAssign (unwrapUnion ft) st k v with
    | error e2 => rw [hca] at h; cases e2 <;> simp at h
    | ok st2 =>
      rw [hca] at h
      injection h with h2
      subst h2
      intro a
      have hs := coerceAssign_ok_setAttrs hca
      simp only [addSetAttr, hs]
      by_cases hk : k ∈ st.setAttrs
      · simp only [if_pos hk]
        constructor
        · exact Or.inl
        · rintro (ha | rfl)
          · exact ha
          · exact hk
      · simp [if_neg hk, List.mem_append]

/-- After a successful `_update`, the provenance set holds exactly the
previously present names and the keys of the applied document. -/
theorem update_ok_setAttrs {sch : Schema} :
    ∀ {st : ConfigState} {d : TomlDict} {st' : ConfigState},
      _update sch st d = .ok st' →
      ∀ a, a ∈ st'.setAttrs ↔ a ∈ st.setAttrs ∨ ∃ w, (a, w) ∈ d
  | st, [], st', h => by
    intro a
    rw [_update] at h
    injection h with h2
    subst h2
    simp
  | st, (k, v) :: rest, st', h => by
    intro a
    rw [_update] at h
    cases hu : updateKey sch st k v with
    | error e1 => rw [hu] at h; simp at h
    | ok st1 =>
      rw [hu] at h
      have ih := update_ok_setAttrs h a
      have hk := updateKey_ok_setAttrs hu a
      rw [ih, hk]
      constructor
      · rintro ((ha | rfl) | ⟨w, hw⟩)
        · exact Or.inl ha
        · exact Or.inr ⟨v, List.mem_cons_self _ _⟩
        · exact Or.inr ⟨w, List.mem_cons_of_mem _ hw⟩
      · rintro (ha | ⟨w, hw⟩)
        · exact Or.inl (Or.inl ha)
        · rcases List.mem_cons.mp hw with heq | hmem
          · cases heq
            exact Or.inl (Or.inr rfl)
          · exact Or.inr ⟨w, hmem⟩

/-! ### The claims -/

/-- Claim C1: the claim states that every regular file of the overlay
directory is applied and that the set of files applied depends only on
the overlay directory's contents.  The code instead tests
`isfile(file_path)` on the bare entry name, resolved against the current
working directory: with identical overlay directory contents, the
regular file `/conf.d/a.toml` is silently skipped when the working
directory is `/home/user` (first conjunct) yet applied when the working
directory happens to be `/conf.d` (second conjunct). -/
theorem claim1_overlay_skip_depends_on_cwd :
    parse claim1Class claim1FsElsewhere none (some "/conf.d") false =
      .ok ⟨[("x", .vint 0)], []⟩ ∧
    parse claim1Class claim1FsInside none (some "/conf.d") false =
      .ok ⟨[("x", .vint 1)], ["x"]⟩ :=
  ⟨rfl, rfl⟩

/-- Claim C2 counterexample: a validator rejecting the instance with a
`ConfigError` is re-raised by `parse` with the message
`In file /etc/app.toml: port must not be 0`, which does carry the
source-file-path annotation the claim denies (the second conjunct
records that the annotated message differs from the bare one). -/
theorem claim2_counterexample :
    parse claim2Class claim2Fs (some "/etc/app.toml") none false =
      .error (.configError "In file /etc/app.toml: port must not be 0") ∧
    "In file /etc/app.toml: port must not be 0" ≠ "port must not be 0" :=
  ⟨rfl, by decide⟩

/-- Claim C2 (amended): for every load of any shape whose file-loading
stage finishes without an exception, a validator rejecting the completed
instance with a ConfigError is caught by `parse`'s generic ConfigError
handler and re-raised with an `In file ...` prefix rendering the current
value of the `file_path` variable: the last overlay entry iterated when
the overlay listing was non-empty, otherwise the base path when one was
given, otherwise `None` — since the validator call sits inside the same
`try` block as the file loading. -/
theorem claim2_amended {c : ConfigClass} {fs : FileSystem} {cp dp : Option String}
    {v : ConfigState → Except PyExc Unit} {m : String} {ig : Bool}
    (hload : (loadStage c.schema c.defaults fs cp dp).err = none)
    (hval : c.validator = some v)
    (hv : v (loadStage c.schema c.defaults fs cp dp).st = .error (.configError m)) :
    parse c fs cp dp ig =
      .error (.configError
        ("In file " ++ fpStr (loadStage c.schema c.defaults fs cp dp).fp ++ ": " ++ m)) := by
  simp only [parse, parseTry, hload, hval, hv, excStr]

/-- Claim C2 witness: the amended statement at a base-file-only load
(annotated with the base path), an overlay-directory load (annotated
with the overlay entry name), and a load given no file at all
(annotated with `None`). -/
theorem claim2_amended_witness :
    parse claim2Class claim2Fs (some "/etc/app.toml") none false =
      .error (.configError "In file /etc/app.toml: port must not be 0") ∧
    parse claim2Class claim2FsOverlay none (some "/conf.d") false =
      .error (.configError "In file 10-a.toml: port must not be 0") ∧
    parse claim2NoFileClass ⟨"/", [], []⟩ none none false =
      .error (.configError "In file None: port must not be 0") :=
  ⟨@claim2_amended claim2Class claim2Fs (some "/etc/app.toml") none claim2Validator
      "port must not be 0" false rfl rfl rfl,
   @claim2_amended claim2Class claim2FsOverlay none (some "/conf.d") claim2Validator
      "port must not be 0" false rfl rfl rfl,
   @claim2_amended claim2NoFileClass ⟨"/", [], []⟩ none none claim2Validator
      "port must not be 0" false rfl rfl rfl⟩

/-- Claim C3 counterexample: an unknown top-level key makes the load
fail, and the message identifies the key, but the exception escaping
`parse` is the raw `KeyError` raised before `_update`'s `try` block, not
the user-facing `ConfigError` the claim states (second conjunct). -/
theorem claim3_counterexample :
    parse claim3Class claim3Fs (some "/a.toml") none false =
      .error (.keyError "Unknown key bogus") ∧
    isConfigErrorResult (parse claim3Class claim3Fs (some "/a.toml") none false) = false :=
  ⟨rfl, rfl⟩

/-- Claim C3 (amended): a raw document whose first key has no matching
schema field makes the load fail with a `KeyError` (not a `ConfigError`)
whose message identifies the unknown key; the key is never silently
ignored. -/
theorem claim3_amended {c : ConfigClass} {fs : FileSystem} {p k : String} {v : Value}
    {rest : TomlDict} {ig : Bool}
    (hopen : openRead fs p = .ok (.toml ((k, v) :: rest)))
    (hk : c.schema.lookup k = none) :
    parse c fs (some p) none ig = .error (.keyError ("Unknown key " ++ k)) := by
  simp only [parse, parseTry, loadStage, hopen, loadToml, _update, updateKey, hk]

/-- Claim C3 witness: the amended statement at the concrete scenario of
the counterexample. -/
theorem claim3_amended_witness :
    parse claim3Class claim3Fs (some "/a.toml") none false =
      .error (.keyError ("Unknown key " ++ "bogus")) :=
  @claim3_amended claim3Class claim3Fs "/a.toml" "bogus" (.vint 1) [] false rfl rfl

/-- Claim C4 counterexample: assigning a TOML list to an int-typed
scalar field makes `int(value)` raise `TypeError`, which `_update`'s
`except (KeyError, ValueError)` clause does not catch: the `TypeError`
escapes `parse` unwrapped, a foreign exception, not a `ConfigError`
(second conjunct). -/
theorem claim4_counterexample :
    parse claim4Class claim4FsList (some "/a.toml") none false =
      .error (.typeError
        "int() argument must be a string, a bytes-like object or a real number, not 'list'") ∧
    isConfigErrorResult (parse claim4Class claim4FsList (some "/a.toml") none false) = false :=
  ⟨rfl, rfl⟩

/-- Claim C4 (amended): a scalar constructor failure raised as
`ValueError` is propagated as a `ConfigError` carrying the underlying
message behind a field and file prefix; constructor failures of other
kinds (e.g. `TypeError`) propagate unwrapped. -/
theorem claim4_amended {c : ConfigClass} {fs : FileSystem} {p key : String} {v : Value}
    {t : PyType} {m : String} {ig : Bool}
    (hopen : openRead fs p = .ok (.toml [(key, v)]))
    (hk : c.schema.lookup key = some (.scalarOf t))
    (hcons : constructorApply t v = .error (.valueError m)) :
    parse c fs (some p) none ig =
      .error (.configError ("In file " ++ p ++ ": " ++ (key ++ ": " ++ m))) := by
  simp only [parse, parseTry, loadStage, hopen, loadToml, _update, updateKey, hk,
    unwrapUnion, coerceAssign, hcons, excStr, fpStr]

/-- Claim C4 witness: the amended statement where `int("abc")` raises
`ValueError` and `parse` reports it as an annotated `ConfigError`. -/
theorem claim4_amended_witness :
    parse claim4Class claim4FsStr (some "/a.toml") none false =
      .error (.configError ("In file " ++ "/a.toml" ++ ": " ++
        ("port" ++ ": " ++ "invalid literal for int() with base 10: 'abc'"))) :=
  @claim4_amended claim4Class claim4FsStr "/a.toml" "port" (.vstr "abc") .tInt
    "invalid literal for int() with base 10: 'abc'" false rfl rfl rfl

/-- Claim C5: for a list-shaped field, the coerced elements are appended
to the current list value (the dataclass default `[]` when no document
has set it yet), so two overlay documents setting `tags` to `["a"]` and
`["b"]` yield the final list `["a", "b"]` in sorted filename order (the
second conjunct runs the full `parse` with an unsorted listing). -/
theorem claim5_list_append :
    (∀ (sch : Schema) (st : ConfigState) (k : String) (t : PyType) (xs cur ys : List Value),
      sch.lookup k = some (.listOf t) →
      getAttrD st k (.vlist []) = .vlist cur →
      mapConstruct t xs = .ok ys →
      updateKey sch st k (.vlist xs) =
        .ok (addSetAttr (setAttr st k (.vlist (cur ++ ys))) k)) ∧
    parse claim5Class claim5Fs none (some "/conf.d") false =
      .ok ⟨[("tags", .vlist [.vstr "a", .vstr "b"])], ["tags"]⟩ := by
  refine ⟨fun sch st k t xs cur ys hl hcur hmap => ?_, rfl⟩
  simp only [updateKey, hl, unwrapUnion, coerceAssign, iterElems, hmap, hcur]

/-- Claim C5 witness: appending `["b"]` to an existing `["a"]`. -/
theorem claim5_list_append_witness :
    updateKey [("tags", FieldType.listOf PyType.tStr)]
        ⟨[("tags", Value.vlist [Value.vstr "a"])], ["tags"]⟩ "tags"
        (Value.vlist [Value.vstr "b"]) =
      .ok (addSetAttr (setAttr ⟨[("tags", Value.vlist [Value.vstr "a"])], ["tags"]⟩ "tags"
        (Value.vlist ([Value.vstr "a"] ++ [Value.vstr "b"]))) "tags") :=
  claim5_list_append.1 [("tags", .listOf .tStr)] ⟨[("tags", .vlist [.vstr "a"])], ["tags"]⟩
    "tags" .tStr [.vstr "b"] [.vstr "a"] [.vstr "b"] rfl rfl rfl

/-- Claim C6: for a dict-shaped field, coerced key/value pairs are
merged into the current dict value with `dict.update` semantics: fresh
keys are appended, colliding keys take the later document's value.  The
second conjunct runs the full `parse`: document A sets `cpu = 1`,
document B sets `mem = 2` and `cpu = 9`, and the final dict holds
`cpu = 9` and `mem = 2`. -/
theorem claim6_dict_merge :
    (∀ (sch : Schema) (st : ConfigState) (k : String) (kt vt : PyType)
        (items cs cur : List (Value × Value)),
      sch.lookup k = some (.dictOf kt vt) →
      getAttrD st k (.vdict []) = .vdict cur →
      coercePairs kt vt items = .ok cs →
      updateKey sch st k (.vdict items) =
        .ok (addSetAttr (setAttr st k (.vdict (dictUpdate cur (dictUpdate [] cs)))) k)) ∧
    parse claim6Class claim6Fs none (some "/conf.d") false =
      .ok ⟨[("limits", .vdict [(.vstr "cpu", .vint 9), (.vstr "mem", .vint 2)])], ["limits"]⟩ := by
  refine ⟨fun sch st k kt vt items cs cur hl hcur hpairs => ?_, rfl⟩
  simp only [updateKey, hl, unwrapUnion, coerceAssign, hpairs, hcur]

/-- Claim C6 witness: updating `\x7bcpu: 1\x7d` with
`\x7bmem: 2, cpu: 9\x7d`. -/
theorem claim6_dict_merge_witness :
    updateKey [("limits", FieldType.dictOf PyType.tStr PyType.tInt)]
        ⟨[("limits", Value.vdict [(Value.vstr "cpu", Value.vint 1)])], ["limits"]⟩ "limits"
        (Value.vdict [(Value.vstr "mem", Value.vint 2), (Value.vstr "cpu", Value.vint 9)]) =
      .ok (addSetAttr (setAttr
        ⟨[("limits", Value.vdict [(Value.vstr "cpu", Value.vint 1)])], ["limits"]⟩ "limits"
        (Value.vdict (dictUpdate [(Value.vstr "cpu", Value.vint 1)]
          (dictUpdate [] [(Value.vstr "mem", Value.vint 2), (Value.vstr "cpu", Value.vint 9)]))))
        "limits") :=
  claim6_dict_merge.1 [("limits", .dictOf .tStr .tInt)]
    ⟨[("limits", .vdict [(.vstr "cpu", .vint 1)])], ["limits"]⟩ "limits" .tStr .tInt
    [(.vstr "mem", .vint 2), (.vstr "cpu", .vint 9)]
    [(.vstr "mem", .vint 2), (.vstr "cpu", .vint 9)]
    [(.vstr "cpu", .vint 1)] rfl rfl rfl

/-- Claim C7: tuple-shaped and set-shaped fields are replaced entirely
(not accumulated): the coerced value overwrites whatever was there
before.  The last two conjuncts run the full `parse` on two overlay
documents setting the field to `["x","y"]` then `["z"]`, yielding the
tuple `("z",)` and the set `\x7b"z"\x7d` respectively. -/
theorem claim7_tuple_set_replace :
    (∀ (sch : Schema) (st : ConfigState) (k : String) (t : PyType) (xs ys : List Value),
      sch.lookup k = some (.tupleOf t) →
      mapConstruct t xs = .ok ys →
      updateKey sch st k (.vlist xs) = .ok (addSetAttr (setAttr st k (.vtuple ys)) k)) ∧
    (∀ (sch : Schema) (st : ConfigState) (k : String) (t : PyType) (xs ys : List Value),
      sch.lookup k = some (.setOf t) →
      mapConstruct t xs = .ok ys →
      updateKey sch st k (.vlist xs) =
        .ok (addSetAttr (setAttr st k (.vset (pySet ys))) k)) ∧
    parse claim7TupleClass claim7Fs none (some "/conf.d") false =
      .ok ⟨[("flags", .vtuple [.vstr "z"])], ["flags"]⟩ ∧
    parse claim7SetClass claim7Fs none (some "/conf.d") false =
      .ok ⟨[("flags", .vset [.vstr "z"])], ["flags"]⟩ := by
  refine ⟨fun sch st k t xs ys hl hmap => ?_, fun sch st k t xs ys hl hmap => ?_, rfl, rfl⟩
  · simp only [updateKey, hl, unwrapUnion, coerceAssign, iterElems, hmap]
  · simp only [updateKey, hl, unwrapUnion, coerceAssign, iterElems, hmap]

/-- Claim C7 witness: replacing an existing two-element tuple and set
with the singleton `"z"`. -/
theorem claim7_tuple_set_replace_witness :
    updateKey [("flags", FieldType.tupleOf PyType.tStr)]
        ⟨[("flags", Value.vtuple [Value.vstr "x", Value.vstr "y"])], ["flags"]⟩ "flags"
        (Value.vlist [Value.vstr "z"]) =
      .ok (addSetAttr (setAttr
        ⟨[("flags", Value.vtuple [Value.vstr "x", Value.vstr "y"])], ["flags"]⟩ "flags"
        (Value.vtuple [Value.vstr "z"])) "flags") ∧
    updateKey [("flags", FieldType.setOf PyType.tStr)]
        ⟨[("flags", Value.vset [Value.vstr "x", Value.vstr "y"])], ["flags"]⟩ "flags"
        (Value.vlist [Value.vstr "z"]) =
      .ok (addSetAttr (setAttr
        ⟨[("flags", Value.vset [Value.vstr "x", Value.vstr "y"])], ["flags"]⟩ "flags"
        (Value.vset (pySet [Value.vstr "z"]))) "flags") :=
  ⟨claim7_tuple_set_replace.1 [("flags", .tupleOf .tStr)]
      ⟨[("flags", .vtuple [.vstr "x", .vstr "y"])], ["flags"]⟩ "flags" .tStr
      [.vstr "z"] [.vstr "z"] rfl rfl,
   claim7_tuple_set_replace.2.1 [("flags", .setOf .tStr)]
      ⟨[("flags", .vset [.vstr "x", .vstr "y"])], ["flags"]⟩ "flags" .tStr
      [.vstr "z"] [.vstr "z"] rfl rfl⟩

/-- Claim C8 counterexample: with `ignore_missing` true, a missing base
path does not make `parse` behave as if that file were absent: the
single `except FileNotFoundError` around the whole `try` body aborts the
overlay processing too.  With base `/missing.toml` absent and overlay
file `b.toml` setting `x = 5`, `parse` returns the default instance
(first conjunct), while actually omitting the base path applies the
overlay and yields `x = 5` (second conjunct). -/
theorem claim8_counterexample :
    parse claim8Class claim8Fs (some "/missing.toml") (some "/conf.d") true =
      .ok ⟨[("x", .vint 0)], []⟩ ∧
    parse claim8Class claim8Fs none (some "/conf.d") true =
      .ok ⟨[("x", .vint 5)], ["x"]⟩ :=
  ⟨rfl, rfl⟩

/-- Claim C8 (amended): when a declared path is missing and
`ignore_missing` is true, the `FileNotFoundError` is swallowed but all
remaining loading steps are aborted and `parse` returns the instance as
populated so far — a default-valued instance when the base path was the
missing file; when `ignore_missing` is false the `FileNotFoundError`
propagates unwrapped. -/
theorem claim8_amended :
    (∀ (c : ConfigClass) (fs : FileSystem) (cp dp : Option String),
      (loadStage c.schema c.defaults fs cp dp).err = some .fileNotFoundError →
      parse c fs cp dp true = .ok (loadStage c.schema c.defaults fs cp dp).st ∧
      parse c fs cp dp false = .error .fileNotFoundError) ∧
    (∀ (c : ConfigClass) (fs : FileSystem) (p : String),
      openRead fs p = .error .fileNotFoundError →
      parse c fs (some p) none true = .ok ⟨c.defaults, []⟩) := by
  constructor
  · intro c fs cp dp h
    constructor <;> simp [parse, parseTry, h]
  · intro c fs p h
    simp [parse, parseTry, loadStage, h]

/-- Claim C8 witness: the amended statement at the counterexample's
scenario — the missing base propagates unwrapped when `ignore_missing`
is false, and yields the default instance when it is true. -/
theorem claim8_amended_witness :
    parse claim8Class claim8Fs (some "/missing.toml") (some "/conf.d") false =
      .error .fileNotFoundError ∧
    parse claim8Class claim8Fs (some "/missing.toml") none true =
      .ok ⟨[("x", Value.vint 0)], []⟩ :=
  ⟨(claim8_amended.1 claim8Class claim8Fs (some "/missing.toml") (some "/conf.d") rfl).2,
   claim8_amended.2 claim8Class claim8Fs "/missing.toml" rfl⟩

/-- Claim C9: a field name is in the set returned by
`configclass_attrs_set` exactly when some applied document mentioned it
(gave it an explicit value), even if a later document overwrote it; a
field never mentioned is absent.  The first conjunct is the invariant
for one `_update` application, the second lifts it through a successful
base-file-only `parse`. -/
theorem claim9_provenance :
    (∀ (sch : Schema) (st : ConfigState) (d : TomlDict) (st' : ConfigState),
      _update sch st d = .ok st' →
      ∀ a, a ∈ configclass_attrs_set st' ↔
        (a ∈ configclass_attrs_set st ∨ ∃ w, (a, w) ∈ d)) ∧
    (∀ (c : ConfigClass) (fs : FileSystem) (p : String) (d : TomlDict)
        (st : ConfigState) (ig : Bool),
      openRead fs p = .ok (.toml d) →
      parse c fs (some p) none ig = .ok st →
      ∀ a, a ∈ configclass_attrs_set st ↔ ∃ w, (a, w) ∈ d) := by
  constructor
  · intro sch st d st' h a
    simpa [configclass_attrs_set] using update_ok_setAttrs h a
  · intro c fs p d st ig hopen hp a
    cases hu : _update c.schema ⟨c.defaults, []⟩ d with
    | error e =>
      cases e
      case fileNotFoundError => exact absurd rfl (update_error_ne_fnf hu)
      all_goals simp [parse, parseTry, loadStage, hopen, loadToml, hu] at hp
    | ok st1 =>
      have hmem := update_ok_setAttrs hu a
      have hst : st = st1 := by
        cases hval : c.validator with
        | none =>
          simp [parse, parseTry, loadStage, hopen, loadToml, hu, hval] at hp
          exact hp.symm
        | some v =>
          cases hv : v st1 with
          | ok u =>
            simp [parse, parseTry, loadStage, hopen, loadToml, hu, hval, hv] at hp
            exact hp.symm
          | error ex =>
            cases ex
            case fileNotFoundError =>
              cases ig
              · simp [parse, parseTry, loadStage, hopen, loadToml, hu, hval, hv] at hp
              · simp [parse, parseTry, loadStage, hopen, loadToml, hu, hval, hv] at hp
                exact hp.symm
            all_goals simp [parse, parseTry, loadStage, hopen, loadToml, hu, hval, hv] at hp
      subst hst
      simpa [configclass_attrs_set] using hmem

/-- Claim C9 witness: after loading a document mentioning only `x`, the
provenance set holds `x` and not `y`. -/
theorem claim9_provenance_witness :
    ("x" ∈ configclass_attrs_set ⟨[("x", Value.vint 3), ("y", Value.vint 0)], ["x"]⟩ ↔
      ∃ w, ("x", w) ∈ [("x", Value.vint 3)]) ∧
    ("y" ∈ configclass_attrs_set ⟨[("x", Value.vint 3), ("y", Value.vint 0)], ["x"]⟩ ↔
      ∃ w, ("y", w) ∈ [("x", Value.vint 3)]) :=
  ⟨claim9_provenance.2 claim9Class claim9Fs "/a.toml" [("x", .vint 3)]
      ⟨[("x", .vint 3), ("y", .vint 0)], ["x"]⟩ false rfl rfl "x",
   claim9_provenance.2 claim9Class claim9Fs "/a.toml" [("x", .vint 3)]
      ⟨[("x", .vint 3), ("y", .vint 0)], ["x"]⟩ false rfl rfl "y"⟩

/-- Claim C10: when the file-loading stage raises `FileNotFoundError`
and `ignore_missing` is true, `parse` returns the instance as populated
so far without consulting the validator: the conclusion holds for every
declared validator `v`, including one that rejects every instance. -/
theorem claim10_validator_skipped :
    ∀ (sch : Schema) (df : List (String × Value)) (fs : FileSystem)
      (cp dp : Option String) (v : ConfigState → Except PyExc Unit),
      (loadStage sch df fs cp dp).err = some .fileNotFoundError →
      parse ⟨sch, df, some v⟩ fs cp dp true = .ok (loadStage sch df fs cp dp).st := by
  intro sch df fs cp dp v h
  simp [parse, parseTry, h]

/-- Claim C10 witness: a configclass whose validator rejects everything
still loads to the default instance when its base path is missing and
`ignore_missing` is set. -/
theorem claim10_validator_skipped_witness :
    parse ⟨[("x", FieldType.scalarOf PyType.tInt)], [("x", Value.vint 0)],
        some claim10Validator⟩ claim10Fs (some "/missing.toml") none true =
      .ok ⟨[("x", Value.vint 0)], []⟩ :=
  claim10_validator_skipped [("x", .scalarOf .tInt)] [("x", .vint 0)] claim10Fs
    (some "/missing.toml") none claim10Validator rfl

end TomlConfig
